import Mathlib

/-!
Verification of the histogram-bucket algebra implemented in
`src/backend/gporca/libnaucrates/src/statistics/CBucket.cpp`.

The boundary-value domain is modelled as the integers (a discretely
ordered domain), and `CDouble` is modelled as `ℚ`.  A bucket is the
record of its two bounds, their closures, and the frequency and
distinct-count estimates, exactly as in the C++ class.  Every operation
below is a direct transcription of the corresponding member function of
`CBucket.cpp`; comments give the source lines.
-/

set_option maxHeartbeats 1600000

/-- A histogram bucket: `CBucket.cpp` lines 31-59 (constructor fields). -/
structure CBucket where
  lower : ℤ
  upper : ℤ
  lowerClosed : Bool
  upperClosed : Bool
  frequency : ℚ
  distinct : ℚ
deriving DecidableEq

namespace CBucket

/-- Modelled from the spec: `CPoint::Distance` (not under `src/`), the
non-negative, symmetric numeric separation of two domain values. -/
def distanceQ (a b : ℤ) : ℚ := |(a : ℚ) - (b : ℚ)|

/-- Modelled from the spec: `CPoint::Width` (not under `src/`), the distance
adjusted by one unit of resolution per side depending on which sides are
inclusive, for a discretely ordered domain. -/
def widthQ (a b : ℤ) (incl1 incl2 : Bool) : ℚ :=
  |(a : ℚ) - (b : ℚ)| - 1 + (if incl1 then 1 else 0) + (if incl2 then 1 else 0)

/-- Singleton test: lower and upper bound coincide (spec data model;
`CBucket::IsSingleton` from the header, used throughout `CBucket.cpp`). -/
def IsSingleton (b : CBucket) : Bool := b.lower == b.upper

/-- `CBucket::Contains`, lines 85-111. -/
def Contains (b : CBucket) (point : ℤ) : Bool :=
  if b.IsSingleton then b.lower == point
  else if b.lowerClosed && (b.lower == point) then true
  else if b.upperClosed && (b.upper == point) then true
  else decide (b.lower < point) && decide (b.upper > point)

/-- `CBucket::IsBefore` (point version), lines 121-131. -/
def IsBeforePoint (b : CBucket) (point : ℤ) : Bool :=
  (b.lowerClosed && decide (b.lower > point)) || (!b.lowerClosed && decide (b.lower ≥ point))

/-- `CBucket::IsAfter` (point version), lines 141-151. -/
def IsAfterPoint (b : CBucket) (point : ℤ) : Bool :=
  (b.upperClosed && decide (b.upper < point)) || (!b.upperClosed && decide (b.upper ≤ point))

/-- `CBucket::GetOverlapPercentage`, lines 162-222. -/
def GetOverlapPercentage (b : CBucket) (point : ℤ) (include_point : Bool) : ℚ :=
  if (b.upper == point && include_point) || decide (b.upper < point) then 1
  else if !(b.Contains point) then 0
  else if b.IsSingleton then 1
  else
    let distance_upper : ℚ := widthQ b.upper b.lower b.lowerClosed b.upperClosed
    let distance_middle : ℚ := widthQ point b.lower b.lowerClosed include_point
    let res : ℚ := 1 / distance_upper
    let res2 : ℚ := if distance_middle > 0 then res * distance_middle else res
    min res2 1

/-- `CBucket::Width`, lines 967-978. -/
def Width (b : CBucket) : ℚ :=
  if b.IsSingleton then 1 else distanceQ b.upper b.lower

/-- `CBucket::MakeBucketSingleton` (reduction of an existing bucket to a
point), lines 448-480. -/
def MakeBucketSingleton (b : CBucket) (point : ℤ) : CBucket :=
  { lower := point
    upper := point
    lowerClosed := true
    upperClosed := true
    frequency := min 1 (b.frequency * (1 / b.distinct))
    distinct := 1 }

/-- `CBucket::MakeBucketScaleUpper`, lines 331-381.  A null pointer result is
modelled as `none`. -/
def MakeBucketScaleUpper (b : CBucket) (point_upper_new : ℤ) (include_upper : Bool) :
    Option CBucket :=
  if b.lower == point_upper_new then
    if include_upper = false then none
    else some (b.MakeBucketSingleton point_upper_new)
  else
    let scale : Bool := !(b.upper == point_upper_new) || (b.upperClosed && !include_upper)
    let overlap : ℚ := b.GetOverlapPercentage point_upper_new include_upper
    some { lower := b.lower
           upper := point_upper_new
           lowerClosed := b.lowerClosed
           upperClosed := include_upper
           frequency := if scale then b.frequency * overlap else b.frequency
           distinct := if scale then b.distinct * overlap else b.distinct }

/-- `CBucket::MakeBucketScaleLower`, lines 392-437. -/
def MakeBucketScaleLower (b : CBucket) (point_lower_new : ℤ) (include_lower : Bool) :
    Option CBucket :=
  if b.upper == point_lower_new then
    some (b.MakeBucketSingleton point_lower_new)
  else
    let scale : Bool := !(b.lower == point_lower_new) || (b.lowerClosed && !include_lower)
    let overlap : ℚ := 1 - b.GetOverlapPercentage point_lower_new (!include_lower)
    some { lower := point_lower_new
           upper := b.upper
           lowerClosed := include_lower
           upperClosed := b.upperClosed
           frequency := if scale then b.frequency * overlap else b.frequency
           distinct := if scale then b.distinct * overlap else b.distinct }

/-- `CBucket::MakeBucketCopy`, lines 490-501. -/
def MakeBucketCopy (b : CBucket) : CBucket :=
  { lower := b.lower
    upper := b.upper
    lowerClosed := b.lowerClosed
    upperClosed := b.upperClosed
    frequency := b.frequency
    distinct := b.distinct }

/-- `CBucket::MakeBucketUpdateFrequency`, lines 531-546. -/
def MakeBucketUpdateFrequency (b : CBucket) (rows_old rows_new : ℚ) : CBucket :=
  { b with frequency := b.frequency * rows_old / rows_new }

/-- `CBucket::CompareLowerBounds`, lines 557-596. -/
def CompareLowerBounds (b1 b2 : CBucket) : ℤ :=
  if b1.lower = b2.lower then
    if b1.lowerClosed = b2.lowerClosed then 0
    else if b1.lowerClosed then -1
    else 1
  else if b1.lower < b2.lower then -1
  else 1

/-- `CBucket::CompareLowerBoundToUpperBound`, lines 607-634. -/
def CompareLowerBoundToUpperBound (b1 b2 : CBucket) : ℤ :=
  if b1.lower > b2.upper then 1
  else if b1.lower < b2.upper then -1
  else if b1.lowerClosed && b2.upperClosed then 0
  else 1

/-- `CBucket::CompareUpperBounds`, lines 645-684. -/
def CompareUpperBounds (b1 b2 : CBucket) : ℤ :=
  if b1.upper = b2.upper then
    if b1.upperClosed = b2.upperClosed then 0
    else if b1.upperClosed then 1
    else -1
  else if b1.upper < b2.upper then -1
  else 1

/-- `CBucket::Subsumes`, lines 751-776. -/
def Subsumes (b1 b2 : CBucket) : Bool :=
  if b1.IsSingleton && b2.IsSingleton then b1.lower == b2.lower
  else if b2.IsSingleton then b1.Contains b2.lower
  else decide (CompareLowerBounds b1 b2 ≤ 0) && decide (CompareUpperBounds b1 b2 ≥ 0)

/-- `CBucket::Intersects`, lines 694-741. -/
def Intersects (b1 b2 : CBucket) : Bool :=
  if b1.IsSingleton && b2.IsSingleton then b1.lower == b2.lower
  else if b1.IsSingleton then b2.Contains b1.lower
  else if b2.IsSingleton then b1.Contains b2.lower
  else if b1.Subsumes b2 || b2.Subsumes b1 then true
  else if CompareLowerBounds b1 b2 ≤ 0 then
    decide (CompareLowerBoundToUpperBound b2 b1 ≤ 0)
  else
    decide (CompareLowerBoundToUpperBound b1 b2 ≤ 0)

/-- `CBucket::IsBefore` (bucket version), lines 1050-1063. -/
def IsBeforeBucket (b1 b2 : CBucket) : Bool :=
  !(b1.Intersects b2) && decide (b1.upper ≤ b2.lower)

/-- `CBucket::IsAfter` (bucket version), lines 1073-1086. -/
def IsAfterBucket (b1 b2 : CBucket) : Bool :=
  !(b1.Intersects b2) && decide (b1.lower ≥ b2.upper)

/-- `CBucket::MakeBucketIntersect`, lines 840-957.  Returns the result
bucket together with the two per-side contributed frequencies
(`result_freq_intersect1`, `result_freq_intersect2`). -/
def MakeBucketIntersect (b bucket : CBucket) : CBucket × ℚ × ℚ :=
  let lower_new : ℤ := max b.lower bucket.lower
  let upper_new : ℤ := min b.upper bucket.upper
  let edge : Bool := b.IsSingleton && bucket.IsSingleton
  -- closure resolution, lines 856-891
  let lower_new_is_closed : Bool :=
    if edge then true
    else if lower_new = upper_new then true
    else if lower_new = bucket.lower then
      (if lower_new = b.lower then b.lowerClosed && bucket.lowerClosed else bucket.lowerClosed)
    else b.lowerClosed
  let upper_new_is_closed : Bool :=
    if edge then true
    else if lower_new = upper_new then true
    else if upper_new = bucket.upper then
      (if upper_new = b.upper then b.upperClosed && bucket.upperClosed else bucket.upperClosed)
    else b.upperClosed
  -- distance and per-side ratios, lines 869-905
  let distance_new : ℚ := if lower_new = upper_new then 1 else distanceQ upper_new lower_new
  let ratio1 : ℚ := if edge then 1 else distance_new / b.Width
  let ratio2 : ℚ := if edge then 1 else distance_new / bucket.Width
  -- NDV and frequency of the result, lines 911-940
  let distinct_new : ℚ := min (ratio1 * b.distinct) (ratio2 * bucket.distinct)
  let freq_intersect1 : ℚ := ratio1 * b.frequency
  let freq_intersect2 : ℚ := ratio2 * bucket.frequency
  let frequency_new : ℚ :=
    freq_intersect1 * freq_intersect2 * 1 / max (ratio1 * b.distinct) (ratio2 * bucket.distinct)
  (⟨lower_new, upper_new, lower_new_is_closed, upper_new_is_closed, frequency_new, distinct_new⟩,
    freq_intersect1, freq_intersect2)

/-- `CBucket::Difference`, lines 990-1040.  The two out-parameters
(`result_bucket_lower`, `result_bucket_upper`) become the two components
of the returned pair; a null pointer is `none`. -/
def Difference (b bucket_other : CBucket) : Option CBucket × Option CBucket :=
  if bucket_other.Subsumes b then (none, none)
  else if b.IsBeforeBucket bucket_other then (some b.MakeBucketCopy, none)
  else if bucket_other.IsBeforeBucket b then (none, some b.MakeBucketCopy)
  else
    ((if b.lower < bucket_other.lower then
        b.MakeBucketScaleUpper bucket_other.lower (!bucket_other.lowerClosed)
      else none),
     (if bucket_other.upper < b.upper then
        b.MakeBucketScaleLower bucket_other.upper (!bucket_other.upperClosed)
      else none))

/-- The lower residual zone of `CBucket::MakeBucketMerged`, lines 1192-1212.
The test `b.lower = min b.lower other.lower` is the source's
`this->GetLowerBound()->Equals(minLower)`. -/
def mergeLowerThird (b other : CBucket) : Option CBucket :=
  if b.lower = other.lower then none
  else if b.lower = min b.lower other.lower then
    b.MakeBucketScaleUpper (max b.lower other.lower) false
  else
    other.MakeBucketScaleUpper (max b.lower other.lower) false

/-- `this_overlap_lower` as assigned in lines 1187-1212. -/
def mergeThisOverlapLower (b other : CBucket) : ℚ :=
  if b.lower = other.lower then 0
  else if b.lower = min b.lower other.lower then
    1 - b.GetOverlapPercentage (max b.lower other.lower) false
  else 0

/-- `bucket_other_overlap_lower` as assigned in lines 1187-1212. -/
def mergeOtherOverlapLower (b other : CBucket) : ℚ :=
  if b.lower = other.lower then 0
  else if b.lower = min b.lower other.lower then 0
  else 1 - other.GetOverlapPercentage (max b.lower other.lower) false

/-- `result_rows` as assigned in lines 1161, 1203 and 1210: the total row
count, overridden when a lower residual zone exists. -/
def mergeResultRows (b other : CBucket) (rows rows_other total_rows : ℚ) : ℚ :=
  if b.lower = other.lower then total_rows
  else if b.lower = min b.lower other.lower then rows
  else rows_other

/-- The upper residual zone of `CBucket::MakeBucketMerged`, lines 1214-1265. -/
def mergeUpperThird (b other : CBucket) : Option CBucket :=
  if b.upper = other.upper then
    if b.upperClosed && !other.upperClosed then
      b.MakeBucketScaleLower (min b.upper other.upper) true
    else if other.upperClosed && !b.upperClosed then
      other.MakeBucketScaleLower (min b.upper other.upper) true
    else none
  else if b.IsSingleton then
    other.MakeBucketScaleLower (min b.upper other.upper) false
  else if other.IsSingleton then
    b.MakeBucketScaleLower (min b.upper other.upper) false
  else if b.upper = max b.upper other.upper then
    b.MakeBucketScaleLower (min b.upper other.upper) true
  else
    other.MakeBucketScaleLower (min b.upper other.upper) true

/-- `this_overlap_upper` as assigned in lines 1214-1265. -/
def mergeThisOverlapUpper (b other : CBucket) : ℚ :=
  if b.upper = other.upper then
    if b.upperClosed && !other.upperClosed then
      b.GetOverlapPercentage (min b.upper other.upper) false
    else if other.upperClosed && !b.upperClosed then 0
    else 1
  else if b.IsSingleton then 0
  else if other.IsSingleton then b.GetOverlapPercentage (min b.upper other.upper) true
  else if b.upper = max b.upper other.upper then
    b.GetOverlapPercentage (min b.upper other.upper) false
  else 0

/-- `bucket_other_overlap_upper` as assigned in lines 1214-1265. -/
def mergeOtherOverlapUpper (b other : CBucket) : ℚ :=
  if b.upper = other.upper then
    if b.upperClosed && !other.upperClosed then 0
    else if other.upperClosed && !b.upperClosed then
      other.GetOverlapPercentage (min b.upper other.upper) false
    else 1
  else if b.IsSingleton then other.GetOverlapPercentage (min b.upper other.upper) true
  else if other.IsSingleton then 0
  else if b.upper = max b.upper other.upper then 0
  else other.GetOverlapPercentage (min b.upper other.upper) false

/-- `merged_rows_this` of line 1273. -/
def mergeRowsThis (b other : CBucket) (rows : ℚ) : ℚ :=
  b.frequency * rows * (mergeThisOverlapLower b other + mergeThisOverlapUpper b other)

/-- `merged_rows_other` of line 1274. -/
def mergeRowsOther (b other : CBucket) (rows_other : ℚ) : ℚ :=
  other.frequency * rows_other * (mergeOtherOverlapLower b other + mergeOtherOverlapUpper b other)

/-- `merged_freq` of lines 1279-1290. -/
def mergeMiddleFreq (b other : CBucket) (rows rows_other : ℚ) (is_union_all : Bool) : ℚ :=
  let total_rows : ℚ := if is_union_all then rows + rows_other else max rows rows_other
  if is_union_all then
    min 1 ((mergeRowsThis b other rows + mergeRowsOther b other rows_other) / total_rows)
  else
    min 1 (max (mergeRowsThis b other rows) (mergeRowsOther b other rows_other) / total_rows)

/-- `merged_ndv` of lines 1275-1303: the sum of the per-side contributed
NDVs capped at the width of the middle zone, overridden to 1 when either
input is a singleton. -/
def mergeMiddleNdv (b other : CBucket) : ℚ :=
  if b.IsSingleton || other.IsSingleton then 1
  else
    min (widthQ (min b.upper other.upper) (max b.lower other.lower)
          (b.lowerClosed || other.lowerClosed) false)
      (b.distinct * (mergeThisOverlapLower b other + mergeThisOverlapUpper b other)
        + other.distinct * (mergeOtherOverlapLower b other + mergeOtherOverlapUpper b other))

/-- `middle_third` of lines 1292-1308. -/
def mergeMiddleThird (b other : CBucket) (rows rows_other : ℚ) (is_union_all : Bool) : CBucket :=
  { lower := max b.lower other.lower
    upper := min b.upper other.upper
    lowerClosed := b.lowerClosed || other.lowerClosed
    upperClosed := if b.IsSingleton || other.IsSingleton
                   then b.upperClosed || other.upperClosed else false
    frequency := mergeMiddleFreq b other rows rows_other is_union_all
    distinct := mergeMiddleNdv b other }

/-- `CBucket::MakeBucketMerged`, lines 1115-1341.  Returns
(return value, `bucket_new1`, `bucket_new2`, `result_rows`). -/
def MakeBucketMerged (b other : CBucket) (rows rows_other : ℚ) (is_union_all : Bool) :
    CBucket × Option CBucket × Option CBucket × ℚ :=
  let total_rows : ℚ := if is_union_all then rows + rows_other else max rows rows_other
  -- special case when both are singleton, lines 1162-1174
  if b.IsSingleton && other.IsSingleton then
    (⟨min b.lower other.lower, max b.upper other.upper, true, true,
      (if is_union_all then
         min 1 ((b.frequency * rows + other.frequency * rows_other) / total_rows)
       else max (b.frequency * rows) (other.frequency * rows_other) / total_rows), 1⟩,
     none, none, total_rows)
  else
    let lower_third := mergeLowerThird b other
    let upper_third := mergeUpperThird b other
    let middle_third := mergeMiddleThird b other rows rows_other is_union_all
    let result_rows := mergeResultRows b other rows rows_other total_rows
    -- routing of the three zones to the outputs, lines 1310-1340
    match lower_third, upper_third with
    | none, none => (middle_third, none, none, result_rows)
    | none, some ut =>
        if ut.upper = b.upper ∧ ut.upperClosed = b.upperClosed then
          (middle_third, some ut, none, result_rows)
        else
          (middle_third, none, some ut, result_rows)
    | some lt, none => (lt, some middle_third, none, result_rows)
    | some lt, some ut =>
        if ut.upper = b.upper then (lt, some ut, some middle_third, result_rows)
        else (lt, some middle_third, some ut, result_rows)

/-- The construction invariants of `CBucket::CBucket` (lines 48-58) together
with the data-model requirement `lower ≤ upper`. -/
def WF (b : CBucket) : Prop :=
  b.lower ≤ b.upper ∧ 0 ≤ b.frequency ∧ b.frequency ≤ 1 ∧ 0 ≤ b.distinct ∧
    (b.lower = b.upper → b.lowerClosed = true ∧ b.upperClosed = true)

/-- The frequency/NDV part of the construction invariants. -/
def BucketOK (b : CBucket) : Prop :=
  0 ≤ b.frequency ∧ b.frequency ≤ 1 ∧ 0 ≤ b.distinct

/-- `BucketOK` lifted to an optional result. -/
def OptBucketOK : Option CBucket → Prop
  | none => True
  | some b => BucketOK b

end CBucket
namespace CBucket

/-- The overlap-fraction rule exactly as the specification words it (spec
section 4.3): outside the special cases, the overlap is
`min(1, Width(point, lower, inclusiveLower, includePoint) /
Width(upper, lower, inclusiveLower, inclusiveUpper))`. -/
def specOverlapPercentage (b : CBucket) (point : ℤ) (include_point : Bool) : ℚ :=
  if (b.upper == point && include_point) || decide (b.upper < point) then 1
  else if !(b.Contains point) then 0
  else if b.IsSingleton then 1
  else
    min 1 (widthQ point b.lower b.lowerClosed include_point /
      widthQ b.upper b.lower b.lowerClosed b.upperClosed)

/-- The spec overlap rule amended to match the code: when the middle width is
not positive the implementation keeps `1 / totalWidth` instead of the stated
quotient. -/
def specOverlapPercentageAmended (b : CBucket) (point : ℤ) (include_point : Bool) : ℚ :=
  if (b.upper == point && include_point) || decide (b.upper < point) then 1
  else if !(b.Contains point) then 0
  else if b.IsSingleton then 1
  else if widthQ point b.lower b.lowerClosed include_point > 0 then
    min 1 (widthQ point b.lower b.lowerClosed include_point /
      widthQ b.upper b.lower b.lowerClosed b.upperClosed)
  else
    min 1 (1 / widthQ b.upper b.lower b.lowerClosed b.upperClosed)

lemma contains_iff (b : CBucket) (hlu : b.lower ≤ b.upper)
    (hs : b.lower = b.upper → b.lowerClosed = true ∧ b.upperClosed = true) (p : ℤ) :
    b.Contains p = true ↔
      ((if b.lowerClosed then b.lower ≤ p else b.lower < p) ∧
       (if b.upperClosed then p ≤ b.upper else p < b.upper)) := by
  simp only [Contains, IsSingleton]
  split_ifs with h1 h2 h3 <;>
    simp_all [beq_iff_eq, Bool.and_eq_true, decide_eq_true_eq] <;> omega

lemma isBeforePoint_iff (b : CBucket) (p : ℤ) :
    b.IsBeforePoint p = true ↔ (if b.lowerClosed then p < b.lower else p ≤ b.lower) := by
  simp only [IsBeforePoint]
  cases h : b.lowerClosed <;> simp [decide_eq_true_eq]

lemma isAfterPoint_iff (b : CBucket) (p : ℤ) :
    b.IsAfterPoint p = true ↔ (if b.upperClosed then b.upper < p else b.upper ≤ p) := by
  simp only [IsAfterPoint]
  cases h : b.upperClosed <;> simp [decide_eq_true_eq]

lemma compareLowerBounds_le_zero (b1 b2 : CBucket) :
    CompareLowerBounds b1 b2 ≤ 0 ↔
      (b1.lower < b2.lower ∨
        (b1.lower = b2.lower ∧ (b2.lowerClosed = true → b1.lowerClosed = true))) := by
  simp only [CompareLowerBounds]
  split_ifs <;> simp_all <;> omega

lemma compareUpperBounds_ge_zero (b1 b2 : CBucket) :
    0 ≤ CompareUpperBounds b1 b2 ↔
      (b2.upper < b1.upper ∨
        (b1.upper = b2.upper ∧ (b2.upperClosed = true → b1.upperClosed = true))) := by
  simp only [CompareUpperBounds]
  split_ifs <;> simp_all <;> omega

lemma compareLowerBoundToUpperBound_le_zero (b1 b2 : CBucket) :
    CompareLowerBoundToUpperBound b1 b2 ≤ 0 ↔
      (b1.lower < b2.upper ∨
        (b1.lower = b2.upper ∧ b1.lowerClosed = true ∧ b2.upperClosed = true)) := by
  simp only [CompareLowerBoundToUpperBound]
  split_ifs <;> simp_all [Bool.and_eq_true] <;> omega

lemma subsumes_iff (b1 b2 : CBucket)
    (hlu1 : b1.lower ≤ b1.upper)
    (hs1 : b1.lower = b1.upper → b1.lowerClosed = true ∧ b1.upperClosed = true)
    (hlu2 : b2.lower ≤ b2.upper)
    (hs2 : b2.lower = b2.upper → b2.lowerClosed = true ∧ b2.upperClosed = true) :
    b1.Subsumes b2 = true ↔
      ((b1.lower < b2.lower ∨
          (b1.lower = b2.lower ∧ (b2.lowerClosed = true → b1.lowerClosed = true))) ∧
       (b2.upper < b1.upper ∨
          (b1.upper = b2.upper ∧ (b2.upperClosed = true → b1.upperClosed = true)))) := by
  simp only [Subsumes, IsSingleton]
  split_ifs with hss hs2o
  · simp_all [beq_iff_eq]
    omega
  · rw [contains_iff b1 hlu1 hs1 b2.lower]
    simp only [beq_iff_eq, Bool.and_eq_true] at hss hs2o
    rcases hs2 hs2o with ⟨hc1, hc2⟩
    cases hb1 : b1.lowerClosed <;> cases hb2 : b1.upperClosed <;> simp_all <;> omega
  · rw [Bool.and_eq_true, decide_eq_true_eq, decide_eq_true_eq,
      compareLowerBounds_le_zero, ge_iff_le, compareUpperBounds_ge_zero]

/-- Closure-aware comparison of a lower bound against an upper bound:
the bound pair allows a common point. -/
def bndle (a : ℤ) (ac : Bool) (b : ℤ) (bc : Bool) : Prop :=
  a < b ∨ (a = b ∧ ac = true ∧ bc = true)

lemma intersects_iff (b1 b2 : CBucket)
    (hlu1 : b1.lower ≤ b1.upper)
    (hs1 : b1.lower = b1.upper → b1.lowerClosed = true ∧ b1.upperClosed = true)
    (hlu2 : b2.lower ≤ b2.upper)
    (hs2 : b2.lower = b2.upper → b2.lowerClosed = true ∧ b2.upperClosed = true) :
    b1.Intersects b2 = true ↔
      (bndle b1.lower b1.lowerClosed b2.upper b2.upperClosed ∧
       bndle b2.lower b2.lowerClosed b1.upper b1.upperClosed) := by
  simp only [Intersects, IsSingleton, bndle]
  split_ifs with hb h1s h2s hsub hcmp
  · -- both singletons
    simp only [beq_iff_eq, Bool.and_eq_true] at hb ⊢
    rcases hs1 hb.1 with ⟨c1, c2⟩
    rcases hs2 hb.2 with ⟨c3, c4⟩
    simp_all
    omega
  · -- b1 singleton, b2 not
    simp only [beq_iff_eq, Bool.and_eq_true] at hb h1s
    rcases hs1 h1s with ⟨c1, c2⟩
    rw [contains_iff b2 hlu2 hs2 b1.lower]
    cases hb2l : b2.lowerClosed <;> cases hb2u : b2.upperClosed <;> simp_all <;> omega
  · -- b2 singleton, b1 not
    simp only [beq_iff_eq, Bool.and_eq_true] at hb h1s h2s
    rcases hs2 h2s with ⟨c3, c4⟩
    rw [contains_iff b1 hlu1 hs1 b2.lower]
    cases hb1l : b1.lowerClosed <;> cases hb1u : b1.upperClosed <;> simp_all <;> omega
  · -- one subsumes the other
    simp only [beq_iff_eq, Bool.and_eq_true] at h1s h2s
    rw [Bool.or_eq_true, subsumes_iff b1 b2 hlu1 hs1 hlu2 hs2,
      subsumes_iff b2 b1 hlu2 hs2 hlu1 hs1] at hsub
    simp only [true_iff]
    have hne1 : b1.lower ≠ b1.upper := fun h => h1s (by simp [h])
    have hne2 : b2.lower ≠ b2.upper := fun h => h2s (by simp [h])
    rcases hsub with ⟨hl, hu⟩ | ⟨hl, hu⟩
    · have a1 : b1.lower ≤ b2.lower := by rcases hl with h | h <;> omega
      have a2 : b2.upper ≤ b1.upper := by rcases hu with h | h <;> omega
      exact ⟨Or.inl (by omega), Or.inl (by omega)⟩
    · have a1 : b2.lower ≤ b1.lower := by rcases hl with h | h <;> omega
      have a2 : b1.upper ≤ b2.upper := by rcases hu with h | h <;> omega
      exact ⟨Or.inl (by omega), Or.inl (by omega)⟩
  · -- comparison path, b1 starts first
    simp only [beq_iff_eq, Bool.and_eq_true] at h1s h2s
    have hne1 : b1.lower ≠ b1.upper := fun h => h1s (by simp [h])
    have hne2 : b2.lower ≠ b2.upper := fun h => h2s (by simp [h])
    rw [compareLowerBounds_le_zero] at hcmp
    have a1 : b1.lower ≤ b2.lower := by rcases hcmp with h | h <;> omega
    rw [decide_eq_true_eq, compareLowerBoundToUpperBound_le_zero]
    exact ⟨fun h => ⟨Or.inl (by omega), h⟩, fun h => h.2⟩
  · -- comparison path, b2 starts first
    simp only [beq_iff_eq, Bool.and_eq_true] at h1s h2s
    have hne1 : b1.lower ≠ b1.upper := fun h => h1s (by simp [h])
    have hne2 : b2.lower ≠ b2.upper := fun h => h2s (by simp [h])
    rw [compareLowerBounds_le_zero, not_or, not_and] at hcmp
    have a1 : b2.lower ≤ b1.lower := by omega
    rw [decide_eq_true_eq, compareLowerBoundToUpperBound_le_zero]
    exact ⟨fun h => ⟨h, Or.inl (by omega)⟩, fun h => h.1⟩

lemma intersects_comm (b1 b2 : CBucket)
    (hlu1 : b1.lower ≤ b1.upper)
    (hs1 : b1.lower = b1.upper → b1.lowerClosed = true ∧ b1.upperClosed = true)
    (hlu2 : b2.lower ≤ b2.upper)
    (hs2 : b2.lower = b2.upper → b2.lowerClosed = true ∧ b2.upperClosed = true) :
    b1.Intersects b2 = b2.Intersects b1 := by
  have h1 := intersects_iff b1 b2 hlu1 hs1 hlu2 hs2
  have h2 := intersects_iff b2 b1 hlu2 hs2 hlu1 hs1
  by_cases h : b1.Intersects b2 = true
  · have h' : b2.Intersects b1 = true := h2.mpr (h1.mp h).symm
    rw [h, h']
  · have h' : b2.Intersects b1 ≠ true := fun hc => h (h1.mpr (h2.mp hc).symm)
    simp only [Bool.not_eq_true] at h h'
    rw [h, h']

lemma subsumes_intersects (b1 b2 : CBucket)
    (hlu1 : b1.lower ≤ b1.upper)
    (hs1 : b1.lower = b1.upper → b1.lowerClosed = true ∧ b1.upperClosed = true)
    (hlu2 : b2.lower ≤ b2.upper)
    (hs2 : b2.lower = b2.upper → b2.lowerClosed = true ∧ b2.upperClosed = true)
    (h : b1.Subsumes b2 = true) : b1.Intersects b2 = true := by
  rw [subsumes_iff b1 b2 hlu1 hs1 hlu2 hs2] at h
  rw [intersects_iff b1 b2 hlu1 hs1 hlu2 hs2]
  obtain ⟨hl, hu⟩ := h
  have a1 : b1.lower ≤ b2.lower := by rcases hl with h | h <;> omega
  have a2 : b2.upper ≤ b1.upper := by rcases hu with h | h <;> omega
  constructor
  · rcases lt_or_le b1.lower b2.upper with hlt | hge
    · exact Or.inl hlt
    · have e1 : b1.lower = b2.upper := by omega
      have e2 : b2.lower = b2.upper := by omega
      rcases hs2 e2 with ⟨c3, c4⟩
      have hlc1 : b1.lowerClosed = true := by
        rcases hl with h | h
        · exact absurd h (by omega)
        · exact h.2 c3
      exact Or.inr ⟨e1, hlc1, c4⟩
  · rcases lt_or_le b2.lower b1.upper with hlt | hge
    · exact Or.inl hlt
    · have e1 : b2.lower = b1.upper := by omega
      have e2 : b2.lower = b2.upper := by omega
      rcases hs2 e2 with ⟨c3, c4⟩
      have huc1 : b1.upperClosed = true := by
        rcases hu with h | h
        · exact absurd h (by omega)
        · exact h.2 c4
      exact Or.inr ⟨e1, c3, huc1⟩

lemma not_intersects_sides (b1 b2 : CBucket)
    (hlu1 : b1.lower ≤ b1.upper)
    (hs1 : b1.lower = b1.upper → b1.lowerClosed = true ∧ b1.upperClosed = true)
    (hlu2 : b2.lower ≤ b2.upper)
    (hs2 : b2.lower = b2.upper → b2.lowerClosed = true ∧ b2.upperClosed = true)
    (h : b1.Intersects b2 = false) :
    b1.upper ≤ b2.lower ∨ b2.upper ≤ b1.lower := by
  have h' : ¬ (b1.Intersects b2 = true) := by simp [h]
  rw [intersects_iff b1 b2 hlu1 hs1 hlu2 hs2, not_and_or, bndle, bndle, not_or, not_or] at h'
  rcases h' with ⟨hne, -⟩ | ⟨hne, -⟩
  · right
    omega
  · left
    omega

lemma intersects_range (b1 b2 : CBucket)
    (hlu1 : b1.lower ≤ b1.upper)
    (hs1 : b1.lower = b1.upper → b1.lowerClosed = true ∧ b1.upperClosed = true)
    (hlu2 : b2.lower ≤ b2.upper)
    (hs2 : b2.lower = b2.upper → b2.lowerClosed = true ∧ b2.upperClosed = true)
    (h : b1.Intersects b2 = true) :
    max b1.lower b2.lower ≤ min b1.upper b2.upper := by
  rw [intersects_iff b1 b2 hlu1 hs1 hlu2 hs2] at h
  obtain ⟨h1, h2⟩ := h
  rcases h1 with h1 | h1 <;> rcases h2 with h2 | h2 <;>
    simp only [max_le_iff, le_min_iff] <;> omega

/-- C9: for every well-formed bucket B and point p, `B.Contains(p)` holds if
and only if neither `B.IsBefore(p)` nor `B.IsAfter(p)` holds. -/
theorem c9_contains_consistency (b : CBucket) (p : ℤ) (hw : WF b) :
    b.Contains p = true ↔
      (b.IsBeforePoint p = false ∧ b.IsAfterPoint p = false) := by
  obtain ⟨hlu, -, -, -, hs⟩ := hw
  rw [contains_iff b hlu hs p, Bool.eq_false_iff, Bool.eq_false_iff, Ne, Ne,
    isBeforePoint_iff, isAfterPoint_iff]
  cases hl : b.lowerClosed <;> cases hu : b.upperClosed <;> simp <;> omega

/-- Witness for C9 at the bucket [0,2] with frequency 1 and one distinct value. -/
theorem c9_witness :
    WF ⟨0, 2, true, true, 1, 1⟩ ∧
      ((⟨0, 2, true, true, 1, 1⟩ : CBucket).Contains 1 = true ↔
        ((⟨0, 2, true, true, 1, 1⟩ : CBucket).IsBeforePoint 1 = false ∧
         (⟨0, 2, true, true, 1, 1⟩ : CBucket).IsAfterPoint 1 = false)) :=
  ⟨by constructor <;> norm_num,
   c9_contains_consistency ⟨0, 2, true, true, 1, 1⟩ 1 (by constructor <;> norm_num)⟩

/-- C10: for well-formed buckets, the bucket-level predicates `Intersects`,
`IsBefore` and `IsAfter` are pairwise mutually exclusive. -/
theorem c10_bucket_order_exclusive (b1 b2 : CBucket) (h1 : WF b1) (h2 : WF b2) :
    (b1.Intersects b2 = true →
      b1.IsBeforeBucket b2 = false ∧ b1.IsAfterBucket b2 = false) ∧
    ¬(b1.IsBeforeBucket b2 = true ∧ b1.IsAfterBucket b2 = true) := by
  obtain ⟨hlu1, -, -, -, hs1⟩ := h1
  obtain ⟨hlu2, -, -, -, hs2⟩ := h2
  constructor
  · intro h
    simp [IsBeforeBucket, IsAfterBucket, h]
  · rintro ⟨hb, ha⟩
    simp only [IsBeforeBucket, IsAfterBucket, Bool.and_eq_true, Bool.not_eq_true',
      decide_eq_true_eq] at hb ha
    obtain ⟨hni, hle⟩ := hb
    obtain ⟨-, hge⟩ := ha
    have e : b1.lower = b1.upper := by omega
    have e2 : b2.lower = b2.upper := by omega
    have hint : b1.Intersects b2 = true := by
      rw [intersects_iff b1 b2 hlu1 hs1 hlu2 hs2]
      rcases hs1 e with ⟨c1, c2⟩
      rcases hs2 e2 with ⟨c3, c4⟩
      exact ⟨Or.inr ⟨by omega, c1, c4⟩, Or.inr ⟨by omega, c3, c2⟩⟩
    simp [hint] at hni

/-- Witness for C10 at the disjoint buckets [0,1] and [5,6]. -/
theorem c10_witness :
    WF ⟨0, 1, true, true, 1, 2⟩ ∧ WF ⟨5, 6, true, true, 1, 2⟩ ∧
      (((⟨0, 1, true, true, 1, 2⟩ : CBucket).Intersects ⟨5, 6, true, true, 1, 2⟩ = true →
        (⟨0, 1, true, true, 1, 2⟩ : CBucket).IsBeforeBucket ⟨5, 6, true, true, 1, 2⟩ = false ∧
        (⟨0, 1, true, true, 1, 2⟩ : CBucket).IsAfterBucket ⟨5, 6, true, true, 1, 2⟩ = false) ∧
      ¬((⟨0, 1, true, true, 1, 2⟩ : CBucket).IsBeforeBucket ⟨5, 6, true, true, 1, 2⟩ = true ∧
        (⟨0, 1, true, true, 1, 2⟩ : CBucket).IsAfterBucket ⟨5, 6, true, true, 1, 2⟩ = true)) :=
  ⟨by constructor <;> norm_num, by constructor <;> norm_num,
   c10_bucket_order_exclusive ⟨0, 1, true, true, 1, 2⟩ ⟨5, 6, true, true, 1, 2⟩
     (by constructor <;> norm_num) (by constructor <;> norm_num)⟩

lemma one_le_abs_cast (a b : ℤ) (h : a ≠ b) : (1 : ℚ) ≤ |(a : ℚ) - (b : ℚ)| := by
  have h1 : (1 : ℤ) ≤ |a - b| := by
    rcases abs_cases (a - b) with ⟨he, hc⟩ | ⟨he, hc⟩ <;> omega
  have h2 : (1 : ℚ) ≤ ((|a - b| : ℤ) : ℚ) := by exact_mod_cast h1
  rwa [Int.cast_abs, Int.cast_sub] at h2

lemma widthQ_nonneg (a b : ℤ) (i1 i2 : Bool) (h : a ≠ b) : 0 ≤ widthQ a b i1 i2 := by
  have h1 := one_le_abs_cast a b h
  unfold widthQ
  split_ifs <;> linarith

lemma overlap_nonneg (b : CBucket) (p : ℤ) (ip : Bool) :
    0 ≤ b.GetOverlapPercentage p ip := by
  simp only [GetOverlapPercentage]
  split_ifs with h1 h2 h3 h4
  · norm_num
  · norm_num
  · norm_num
  all_goals
    simp only [IsSingleton, beq_iff_eq] at h3
  all_goals
    have hne : b.upper ≠ b.lower := fun he => h3 he.symm
  all_goals
    have hres : 0 ≤ 1 / widthQ b.upper b.lower b.lowerClosed b.upperClosed :=
      div_nonneg (by norm_num) (widthQ_nonneg _ _ _ _ hne)
  · exact le_min (mul_nonneg hres (le_of_lt h4)) (by norm_num)
  · exact le_min hres (by norm_num)

lemma overlap_le_one (b : CBucket) (p : ℤ) (ip : Bool) :
    b.GetOverlapPercentage p ip ≤ 1 := by
  simp only [GetOverlapPercentage]
  split_ifs with h1 h2 h3 h4 <;> simp [min_le_right]

lemma makeBucketSingleton_ok (b : CBucket) (p : ℤ)
    (hf : 0 ≤ b.frequency) (hd : 0 ≤ b.distinct) :
    BucketOK (b.MakeBucketSingleton p) := by
  refine ⟨?_, ?_, ?_⟩ <;> simp only [MakeBucketSingleton]
  · exact le_min (by norm_num) (mul_nonneg hf (div_nonneg (by norm_num) hd))
  · exact min_le_left _ _
  · norm_num

lemma makeBucketScaleUpper_ok (b : CBucket) (p : ℤ) (ip : Bool)
    (hf0 : 0 ≤ b.frequency) (hf1 : b.frequency ≤ 1) (hd : 0 ≤ b.distinct) :
    OptBucketOK (b.MakeBucketScaleUpper p ip) := by
  simp only [MakeBucketScaleUpper]
  split_ifs with h1 h2 h3
  · trivial
  · exact makeBucketSingleton_ok b p hf0 hd
  · exact ⟨mul_nonneg hf0 (overlap_nonneg b p ip),
      mul_le_one₀ hf1 (overlap_nonneg b p ip) (overlap_le_one b p ip),
      mul_nonneg hd (overlap_nonneg b p ip)⟩
  · exact ⟨hf0, hf1, hd⟩

lemma makeBucketScaleLower_ok (b : CBucket) (p : ℤ) (ip : Bool)
    (hf0 : 0 ≤ b.frequency) (hf1 : b.frequency ≤ 1) (hd : 0 ≤ b.distinct) :
    OptBucketOK (b.MakeBucketScaleLower p ip) := by
  have hov0 := overlap_nonneg b p (!ip)
  have hov1 := overlap_le_one b p (!ip)
  simp only [MakeBucketScaleLower]
  split_ifs with h1 h2
  · exact makeBucketSingleton_ok b p hf0 hd
  · exact ⟨mul_nonneg hf0 (by linarith), mul_le_one₀ hf1 (by linarith) (by linarith),
      mul_nonneg hd (by linarith)⟩
  · exact ⟨hf0, hf1, hd⟩

/-- C6 (amended): for every well-formed bucket the overlap percentage of a
contained point lies in [0,1]; the overlap at the upper bound (inclusive) is
1; the overlap at an inclusive lower bound is `min 1 (1/totalWidth)` rather
than 0. -/
theorem c6_overlap_bounds (b : CBucket) (p : ℤ) (ip : Bool) (hw : WF b) :
    (b.Contains p = true →
      0 ≤ b.GetOverlapPercentage p ip ∧ b.GetOverlapPercentage p ip ≤ 1) ∧
    b.GetOverlapPercentage b.upper true = 1 ∧
    (b.lowerClosed = true →
      b.GetOverlapPercentage b.lower true =
        min 1 (1 / widthQ b.upper b.lower b.lowerClosed b.upperClosed)) := by
  refine ⟨fun hc => ⟨overlap_nonneg b p ip, overlap_le_one b p ip⟩, ?_, ?_⟩
  · simp [GetOverlapPercentage]
  · intro hlc
    by_cases hsing : b.lower = b.upper
    · rcases hw.2.2.2.2 hsing with ⟨c1, c2⟩
      simp only [GetOverlapPercentage]
      rw [if_pos]
      · rw [show widthQ b.upper b.lower b.lowerClosed b.upperClosed = 1 by
          simp [widthQ, ← hsing, c1, c2]]
        norm_num
      · simp [← hsing]
    · have hlt : b.lower < b.upper := lt_of_le_of_ne hw.1 hsing
      have hc : b.Contains b.lower = true := by
        simp [Contains, IsSingleton, hsing, hlc]
      have hdm : widthQ b.lower b.lower b.lowerClosed true = 1 := by
        simp [widthQ, hlc]
      simp only [GetOverlapPercentage]
      split_ifs with g1 g2 g3 g4
      · exfalso
        simp only [Bool.or_eq_true, Bool.and_eq_true, beq_iff_eq, decide_eq_true_eq] at g1
        rcases g1 with ⟨g, -⟩ | g <;> omega
      · exfalso
        simp [hc] at g2
      · exfalso
        simp only [IsSingleton, beq_iff_eq] at g3
        exact hsing g3
      · rw [hdm, mul_one, min_comm]
      · exfalso
        rw [hdm] at g4
        norm_num at g4

/-- C6 counterexample: for the well-formed bucket [1,10) with frequency 1/2
and 9 distinct values, the overlap percentage at the (inclusive) lower bound
is 1/9, not 0 as the claim states. -/
theorem c6_counterexample :
    WF ⟨1, 10, true, false, 1/2, 9⟩ ∧
      (⟨1, 10, true, false, 1/2, 9⟩ : CBucket).GetOverlapPercentage 1 true = 1/9 ∧
      ((1 : ℚ)/9 ≠ 0) := by
  refine ⟨⟨by norm_num, by norm_num, by norm_num, by norm_num, by norm_num⟩, ?_, by norm_num⟩
  norm_num [GetOverlapPercentage, Contains, IsSingleton, widthQ]

/-- Witness for C6 at the bucket [1,10) with frequency 1/2 and 9 distinct
values and the contained point 5. -/
theorem c6_witness :
    WF ⟨1, 10, true, false, 1/2, 9⟩ ∧
      ((⟨1, 10, true, false, 1/2, 9⟩ : CBucket).Contains 5 = true →
        0 ≤ (⟨1, 10, true, false, 1/2, 9⟩ : CBucket).GetOverlapPercentage 5 false ∧
          (⟨1, 10, true, false, 1/2, 9⟩ : CBucket).GetOverlapPercentage 5 false ≤ 1) ∧
      (⟨1, 10, true, false, 1/2, 9⟩ : CBucket).GetOverlapPercentage 10 true = 1 ∧
      (true = true →
        (⟨1, 10, true, false, 1/2, 9⟩ : CBucket).GetOverlapPercentage 1 true =
          min 1 (1 / widthQ 10 1 true false)) := by
  have hw : WF ⟨1, 10, true, false, 1/2, 9⟩ :=
    ⟨by norm_num, by norm_num, by norm_num, by norm_num, by norm_num⟩
  exact ⟨hw, c6_overlap_bounds ⟨1, 10, true, false, 1/2, 9⟩ 5 false hw⟩

/-- C5 (amended): `GetOverlapPercentage` returns 1 at or beyond the upper
bound (respecting `includePoint`), 0 for a point not contained, 1 for a
singleton, and otherwise `min(1, Width(point,lower)/Width(upper,lower))`
when the middle width is positive and `min(1, 1/Width(upper,lower))`
otherwise. -/
theorem c5_overlap_rule (b : CBucket) (point : ℤ) (include_point : Bool) :
    b.GetOverlapPercentage point include_point =
      specOverlapPercentageAmended b point include_point := by
  simp only [GetOverlapPercentage, specOverlapPercentageAmended]
  split_ifs with h1 h2 h3 h4
  · rfl
  · rfl
  · rfl
  · rw [min_comm, one_div_mul_eq_div]
  · rw [min_comm]

/-- C5 counterexample: for the well-formed bucket [1,10) and its inclusive
lower bound 1 with `includePoint = false`, the code returns 1/9 while the
spec rule yields 0. -/
theorem c5_counterexample :
    WF ⟨1, 10, true, false, 1/2, 9⟩ ∧
      (⟨1, 10, true, false, 1/2, 9⟩ : CBucket).GetOverlapPercentage 1 false = 1/9 ∧
      specOverlapPercentage ⟨1, 10, true, false, 1/2, 9⟩ 1 false = 0 ∧
      ((1 : ℚ)/9 ≠ 0) := by
  refine ⟨⟨by norm_num, by norm_num, by norm_num, by norm_num, by norm_num⟩, ?_, ?_, by norm_num⟩
  · norm_num [GetOverlapPercentage, Contains, IsSingleton, widthQ]
  · norm_num [specOverlapPercentage, Contains, IsSingleton, widthQ]

/-- C7 (amended): when the new bound collapses onto the opposite bound,
`MakeBucketScaleUpper` yields a singleton, or `none` when the collapsed
bound would be exclusive; `MakeBucketScaleLower` always yields a singleton,
ignoring the include flag. -/
theorem c7_collapse_to_singleton (b : CBucket) (p : ℤ) (ip : Bool)
    (hw : WF b) (hc : b.Contains p = true) :
    (b.lower = p → b.MakeBucketScaleUpper p ip =
      (if ip = true then some (b.MakeBucketSingleton p) else none)) ∧
    (b.upper = p → b.MakeBucketScaleLower p ip = some (b.MakeBucketSingleton p)) := by
  constructor
  · intro h
    simp only [MakeBucketScaleUpper, h, beq_self_eq_true, if_true]
    cases ip <;> simp
  · intro h
    simp only [MakeBucketScaleLower, h, beq_self_eq_true, if_true]

/-- C7 counterexample: scaling the lower bound of the well-formed bucket
[5,10] up to the contained point 10 with an exclusive include flag returns a
singleton bucket, not the absent result the claim describes. -/
theorem c7_counterexample :
    WF ⟨5, 10, true, true, 1/2, 6⟩ ∧
      (⟨5, 10, true, true, 1/2, 6⟩ : CBucket).Contains 10 = true ∧
      (⟨5, 10, true, true, 1/2, 6⟩ : CBucket).MakeBucketScaleLower 10 false ≠ none := by
  refine ⟨⟨by norm_num, by norm_num, by norm_num, by norm_num, by norm_num⟩, ?_, ?_⟩
  · norm_num [Contains, IsSingleton]
  · simp [MakeBucketScaleLower]

/-- Witness for C7 at the bucket [5,10] and the collapsing points 5 and 10. -/
theorem c7_witness :
    WF ⟨5, 10, true, true, 1/2, 6⟩ ∧
      (⟨5, 10, true, true, 1/2, 6⟩ : CBucket).Contains 5 = true ∧
      (((5 : ℤ) = 5 → (⟨5, 10, true, true, 1/2, 6⟩ : CBucket).MakeBucketScaleUpper 5 false =
          (if false = true
           then some ((⟨5, 10, true, true, 1/2, 6⟩ : CBucket).MakeBucketSingleton 5)
           else none)) ∧
       ((10 : ℤ) = 5 → (⟨5, 10, true, true, 1/2, 6⟩ : CBucket).MakeBucketScaleLower 5 false =
          some ((⟨5, 10, true, true, 1/2, 6⟩ : CBucket).MakeBucketSingleton 5))) := by
  have hw : WF ⟨5, 10, true, true, 1/2, 6⟩ :=
    ⟨by norm_num, by norm_num, by norm_num, by norm_num, by norm_num⟩
  have hc : (⟨5, 10, true, true, 1/2, 6⟩ : CBucket).Contains 5 = true := by
    norm_num [Contains, IsSingleton]
  exact ⟨hw, hc, c7_collapse_to_singleton ⟨5, 10, true, true, 1/2, 6⟩ 5 false hw hc⟩

/-- C8: `Difference` returns no residuals when the other bucket subsumes this
one; a full copy of this bucket on the matching side when the buckets do not
intersect; and otherwise a lower residual scaled to the other bucket's lower
bound exactly when it cuts, and an upper residual scaled to the other
bucket's upper bound exactly when it cuts; in particular
`Difference([1,100), [50,150))` yields the lower residual [1,50) and no
upper residual. -/
theorem c8_difference (b other : CBucket) (h1 : WF b) (h2 : WF other) :
    (other.Subsumes b = true → b.Difference other = (none, none)) ∧
    (b.Intersects other = false →
      (b.IsBeforeBucket other = true ∧
        b.Difference other = (some b.MakeBucketCopy, none)) ∨
      (b.IsAfterBucket other = true ∧
        b.Difference other = (none, some b.MakeBucketCopy))) ∧
    (b.Intersects other = true → other.Subsumes b = false →
      b.Difference other =
        ((if b.lower < other.lower
          then b.MakeBucketScaleUpper other.lower (!other.lowerClosed) else none),
         (if other.upper < b.upper
          then b.MakeBucketScaleLower other.upper (!other.upperClosed) else none)) ∧
      (b.lower < other.lower →
        b.MakeBucketScaleUpper other.lower (!other.lowerClosed) ≠ none) ∧
      (other.upper < b.upper →
        b.MakeBucketScaleLower other.upper (!other.upperClosed) ≠ none)) ∧
    (∃ res : CBucket,
      CBucket.Difference ⟨1, 100, true, false, 1/2, 50⟩ ⟨50, 150, true, false, 1/2, 50⟩ =
        (some res, none) ∧
      res.lower = 1 ∧ res.upper = 50 ∧ res.lowerClosed = true ∧ res.upperClosed = false) := by
  obtain ⟨hlu1, -, -, -, hs1⟩ := h1
  obtain ⟨hlu2, -, -, -, hs2⟩ := h2
  refine ⟨?_, ?_, ?_, ?_⟩
  · intro h
    simp [Difference, h]
  · intro hni
    have hni2 : other.Intersects b = false := by
      rw [intersects_comm other b hlu2 hs2 hlu1 hs1]
      exact hni
    have hsub : other.Subsumes b = false := by
      by_contra hx
      rw [Bool.not_eq_false] at hx
      have hy := subsumes_intersects other b hlu2 hs2 hlu1 hs1 hx
      simp [hy] at hni2
    have hsides := not_intersects_sides b other hlu1 hs1 hlu2 hs2 hni
    by_cases hbl : b.upper ≤ other.lower
    · left
      have hbef : b.IsBeforeBucket other = true := by
        simp [IsBeforeBucket, hni, hbl]
      exact ⟨hbef, by simp [Difference, hsub, hbef]⟩
    · right
      have hup : other.upper ≤ b.lower := by
        rcases hsides with h | h
        · exact absurd h hbl
        · exact h
      have haft : b.IsAfterBucket other = true := by
        simp [IsAfterBucket, hni, hup]
      have hbef : b.IsBeforeBucket other = false := by
        simp [IsBeforeBucket, hni, hbl]
      have hobef : other.IsBeforeBucket b = true := by
        simp [IsBeforeBucket, hni2, hup]
      exact ⟨haft, by simp [Difference, hsub, hbef, hobef]⟩
  · intro hi hsub
    have hi2 : other.Intersects b = true := by
      rw [intersects_comm other b hlu2 hs2 hlu1 hs1]
      exact hi
    have hbef : b.IsBeforeBucket other = false := by simp [IsBeforeBucket, hi]
    have hobef : other.IsBeforeBucket b = false := by simp [IsBeforeBucket, hi2]
    refine ⟨by simp [Difference, hsub, hbef, hobef], ?_, ?_⟩
    · intro hlt
      simp [MakeBucketScaleUpper, show ¬(b.lower = other.lower) by omega]
    · intro hlt
      simp only [MakeBucketScaleLower]
      split_ifs <;> simp
  · refine ⟨⟨1, 50, true, false, 49/198, 2450/99⟩, ?_, rfl, rfl, rfl, rfl⟩
    norm_num [Difference, Subsumes, IsSingleton, Contains, IsBeforeBucket, IsAfterBucket,
      Intersects, CompareLowerBounds, CompareUpperBounds, CompareLowerBoundToUpperBound,
      MakeBucketScaleUpper, MakeBucketScaleLower, GetOverlapPercentage, widthQ,
      MakeBucketSingleton, distanceQ, MakeBucketCopy]

/-- Witness for C8 at the buckets [1,100) and [50,150). -/
theorem c8_witness :
    WF ⟨1, 100, true, false, 1/2, 50⟩ ∧ WF ⟨50, 150, true, false, 1/2, 50⟩ ∧
      (∃ res : CBucket,
        CBucket.Difference ⟨1, 100, true, false, 1/2, 50⟩ ⟨50, 150, true, false, 1/2, 50⟩ =
          (some res, none) ∧
        res.lower = 1 ∧ res.upper = 50 ∧ res.lowerClosed = true ∧ res.upperClosed = false) := by
  have hw1 : WF ⟨1, 100, true, false, 1/2, 50⟩ :=
    ⟨by norm_num, by norm_num, by norm_num, by norm_num, by norm_num⟩
  have hw2 : WF ⟨50, 150, true, false, 1/2, 50⟩ :=
    ⟨by norm_num, by norm_num, by norm_num, by norm_num, by norm_num⟩
  exact ⟨hw1, hw2, (c8_difference ⟨1, 100, true, false, 1/2, 50⟩ ⟨50, 150, true, false, 1/2, 50⟩
    hw1 hw2).2.2.2⟩

/-- C2: for intersecting well-formed buckets, `MakeBucketIntersect` returns
per-side contributed frequencies `ratio_i * freq_i`, NDV
`min(ratio1*distinct1, ratio2*distinct2)` and frequency
`(ratio1*freq1)*(ratio2*freq2)/max(ratio1*distinct1, ratio2*distinct2)`,
where `ratio_i` is the new bucket's width divided by the input's width
(both 1 when both inputs are singletons). -/
theorem c2_intersect_formulas (b other : CBucket) (h1 : WF b) (h2 : WF other)
    (hi : b.Intersects other = true) :
    (b.MakeBucketIntersect other).2.1 =
      ((b.MakeBucketIntersect other).1.Width / b.Width) * b.frequency ∧
    (b.MakeBucketIntersect other).2.2 =
      ((b.MakeBucketIntersect other).1.Width / other.Width) * other.frequency ∧
    (b.MakeBucketIntersect other).1.distinct =
      min (((b.MakeBucketIntersect other).1.Width / b.Width) * b.distinct)
        (((b.MakeBucketIntersect other).1.Width / other.Width) * other.distinct) ∧
    (b.MakeBucketIntersect other).1.frequency =
      (((b.MakeBucketIntersect other).1.Width / b.Width) * b.frequency) *
        (((b.MakeBucketIntersect other).1.Width / other.Width) * other.frequency) /
        max (((b.MakeBucketIntersect other).1.Width / b.Width) * b.distinct)
          (((b.MakeBucketIntersect other).1.Width / other.Width) * other.distinct) := by
  by_cases hedge : (b.IsSingleton && other.IsSingleton) = true
  · have hll : b.lower = other.lower := by
      unfold Intersects at hi
      rw [if_pos hedge] at hi
      exact beq_iff_eq.mp hi
    rw [Bool.and_eq_true] at hedge
    have hb : b.lower = b.upper := beq_iff_eq.mp hedge.1
    have ho : other.lower = other.upper := beq_iff_eq.mp hedge.2
    obtain ⟨b1, b2, b3, b4, b5, b6⟩ := b
    obtain ⟨o1, o2, o3, o4, o5, o6⟩ := other
    simp only at hb ho hll
    subst hb ho hll
    simp only [MakeBucketIntersect, IsSingleton, Width, beq_self_eq_true, Bool.and_self,
      if_true, max_self, min_self, if_pos]
    norm_num
  · have hedgeF : (b.IsSingleton && other.IsSingleton) = false := by
      simp only [Bool.not_eq_true] at hedge
      exact hedge
    have hlo : (b.MakeBucketIntersect other).1.lower = max b.lower other.lower := rfl
    have hup : (b.MakeBucketIntersect other).1.upper = min b.upper other.upper := rfl
    by_cases hpt : max b.lower other.lower = min b.upper other.upper
    · have hwidth : (b.MakeBucketIntersect other).1.Width = 1 := by
        simp only [Width, IsSingleton, hlo, hup, hpt, beq_self_eq_true, if_true]
      have hq1 : (b.MakeBucketIntersect other).2.1 = 1 / b.Width * b.frequency := by
        simp only [MakeBucketIntersect, hedgeF, Bool.false_eq_true, if_false, hpt,
          eq_self_iff_true, if_true]
      have hq2 : (b.MakeBucketIntersect other).2.2 = 1 / other.Width * other.frequency := by
        simp only [MakeBucketIntersect, hedgeF, Bool.false_eq_true, if_false, hpt,
          eq_self_iff_true, if_true]
      have hd : (b.MakeBucketIntersect other).1.distinct =
          min (1 / b.Width * b.distinct) (1 / other.Width * other.distinct) := by
        simp only [MakeBucketIntersect, hedgeF, Bool.false_eq_true, if_false, hpt,
          eq_self_iff_true, if_true]
      have hf : (b.MakeBucketIntersect other).1.frequency =
          1 / b.Width * b.frequency * (1 / other.Width * other.frequency) * 1 /
            max (1 / b.Width * b.distinct) (1 / other.Width * other.distinct) := by
        simp only [MakeBucketIntersect, hedgeF, Bool.false_eq_true, if_false, hpt,
          eq_self_iff_true, if_true]
      rw [hwidth]
      refine ⟨hq1, hq2, hd, ?_⟩
      rw [hf, mul_one]
    · have hwidth : (b.MakeBucketIntersect other).1.Width =
          distanceQ (min b.upper other.upper) (max b.lower other.lower) := by
        simp only [Width, IsSingleton, hlo, hup, beq_iff_eq]
        rw [if_neg hpt]
      have hq1 : (b.MakeBucketIntersect other).2.1 =
          distanceQ (min b.upper other.upper) (max b.lower other.lower) / b.Width *
            b.frequency := by
        simp only [MakeBucketIntersect, hedgeF, Bool.false_eq_true, if_false, if_neg hpt]
      have hq2 : (b.MakeBucketIntersect other).2.2 =
          distanceQ (min b.upper other.upper) (max b.lower other.lower) / other.Width *
            other.frequency := by
        simp only [MakeBucketIntersect, hedgeF, Bool.false_eq_true, if_false, if_neg hpt]
      have hd : (b.MakeBucketIntersect other).1.distinct =
          min (distanceQ (min b.upper other.upper) (max b.lower other.lower) / b.Width *
              b.distinct)
            (distanceQ (min b.upper other.upper) (max b.lower other.lower) / other.Width *
              other.distinct) := by
        simp only [MakeBucketIntersect, hedgeF, Bool.false_eq_true, if_false, if_neg hpt]
      have hf : (b.MakeBucketIntersect other).1.frequency =
          distanceQ (min b.upper other.upper) (max b.lower other.lower) / b.Width *
              b.frequency *
            (distanceQ (min b.upper other.upper) (max b.lower other.lower) / other.Width *
              other.frequency) * 1 /
            max (distanceQ (min b.upper other.upper) (max b.lower other.lower) / b.Width *
                b.distinct)
              (distanceQ (min b.upper other.upper) (max b.lower other.lower) / other.Width *
                other.distinct) := by
        simp only [MakeBucketIntersect, hedgeF, Bool.false_eq_true, if_false, if_neg hpt]
      rw [hwidth]
      refine ⟨hq1, hq2, hd, ?_⟩
      rw [hf, mul_one]

/-- Witness for C2 at the buckets [10,14] and [8,16] (spec scenario 4). -/
theorem c2_witness :
    WF ⟨10, 14, true, true, 1/2, 4⟩ ∧ WF ⟨8, 16, true, true, 1/2, 8⟩ ∧
      (⟨10, 14, true, true, 1/2, 4⟩ : CBucket).Intersects ⟨8, 16, true, true, 1/2, 8⟩ = true ∧
      ((⟨10, 14, true, true, 1/2, 4⟩ : CBucket).MakeBucketIntersect
          ⟨8, 16, true, true, 1/2, 8⟩).2.1 =
        (((⟨10, 14, true, true, 1/2, 4⟩ : CBucket).MakeBucketIntersect
            ⟨8, 16, true, true, 1/2, 8⟩).1.Width /
          (⟨10, 14, true, true, 1/2, 4⟩ : CBucket).Width) *
          (⟨10, 14, true, true, 1/2, 4⟩ : CBucket).frequency := by
  have hw1 : WF ⟨10, 14, true, true, 1/2, 4⟩ :=
    ⟨by norm_num, by norm_num, by norm_num, by norm_num, by norm_num⟩
  have hw2 : WF ⟨8, 16, true, true, 1/2, 8⟩ :=
    ⟨by norm_num, by norm_num, by norm_num, by norm_num, by norm_num⟩
  have hi : (⟨10, 14, true, true, 1/2, 4⟩ : CBucket).Intersects ⟨8, 16, true, true, 1/2, 8⟩ =
      true := by
    norm_num [Intersects, IsSingleton, Subsumes, Contains, CompareLowerBounds,
      CompareUpperBounds, CompareLowerBoundToUpperBound]
  exact ⟨hw1, hw2, hi,
    (c2_intersect_formulas ⟨10, 14, true, true, 1/2, 4⟩ ⟨8, 16, true, true, 1/2, 8⟩
      hw1 hw2 hi).1⟩

lemma mergeMiddle_mem (b other : CBucket) (rows rows_other : ℚ) (ua : Bool)
    (h : (b.IsSingleton && other.IsSingleton) = false) :
    (b.MakeBucketMerged other rows rows_other ua).1 =
        mergeMiddleThird b other rows rows_other ua ∨
      (b.MakeBucketMerged other rows rows_other ua).2.1 =
        some (mergeMiddleThird b other rows rows_other ua) ∨
      (b.MakeBucketMerged other rows rows_other ua).2.2.1 =
        some (mergeMiddleThird b other rows rows_other ua) := by
  simp only [MakeBucketMerged, h, Bool.false_eq_true, if_false]
  rcases hl : mergeLowerThird b other with - | lt <;>
    rcases hu : mergeUpperThird b other with - | ut <;>
      simp only [] <;> first
        | (split_ifs <;> simp)
        | simp

/-- C3 (amended): the middle zone of a merge of two buckets that are not both
singletons has frequency `min(1, sum/total)` for union-all and
`min(1, max/total)` for plain union, with `total = rowsThis+rowsOther`
resp. `max(rowsThis, rowsOther)`; and merging two identical singletons under
union-all with equal positive row count r gives a single closed bucket with
frequency `min(1, (f1·r+f2·r)/(r+r)) = min(1, (f1+f2)/2)` and one distinct
value. -/
theorem c3_merge_middle_frequency (b other : CBucket) (rows rows_other : ℚ) (ua : Bool)
    (l : ℤ) (f1 f2 d1 d2 r : ℚ) :
    ((b.IsSingleton && other.IsSingleton) = false →
      ∃ m : CBucket,
        ((b.MakeBucketMerged other rows rows_other ua).1 = m ∨
          (b.MakeBucketMerged other rows rows_other ua).2.1 = some m ∨
          (b.MakeBucketMerged other rows rows_other ua).2.2.1 = some m) ∧
        m.lower = max b.lower other.lower ∧ m.upper = min b.upper other.upper ∧
        m.frequency = (if ua = true then
            min 1 ((mergeRowsThis b other rows + mergeRowsOther b other rows_other) /
              (rows + rows_other))
          else
            min 1 (max (mergeRowsThis b other rows) (mergeRowsOther b other rows_other) /
              max rows rows_other))) ∧
    (0 < r →
      CBucket.MakeBucketMerged ⟨l, l, true, true, f1, d1⟩ ⟨l, l, true, true, f2, d2⟩ r r true =
        (⟨l, l, true, true, min 1 ((f1 + f2) / 2), 1⟩, none, none, r + r)) := by
  constructor
  · intro h
    refine ⟨mergeMiddleThird b other rows rows_other ua,
      mergeMiddle_mem b other rows rows_other ua h, rfl, rfl, ?_⟩
    cases ua <;> simp [mergeMiddleThird, mergeMiddleFreq]
  · intro hr
    have harith : (f1 * r + f2 * r) / (r + r) = (f1 + f2) / 2 := by
      rw [div_eq_div_iff (by linarith) (by norm_num)]
      ring
    simp only [MakeBucketMerged, IsSingleton, beq_self_eq_true, Bool.and_self, if_true,
      max_self, min_self, harith]

/-- C3 counterexample: merging the singleton [1,1] with frequency 1/2 with an
identical one under union-all and equal row counts 1 yields frequency 1/2,
while the claim predicts `min(1, f1+f2) = 1`. -/
theorem c3_counterexample :
    (CBucket.MakeBucketMerged ⟨1, 1, true, true, 1/2, 1⟩ ⟨1, 1, true, true, 1/2, 1⟩
        1 1 true).1.frequency = 1/2 ∧
      min 1 ((1 : ℚ)/2 + 1/2) = 1 ∧ ((1 : ℚ)/2 ≠ 1) := by
  refine ⟨?_, by norm_num, by norm_num⟩
  norm_num [MakeBucketMerged, IsSingleton]

/-- Witness for C3 at the buckets [1,10) and [5,20) (rows 100 and 200,
union-all), and the singleton scenario with f1 = f2 = 1/4 and r = 2. -/
theorem c3_witness :
    (∃ m : CBucket,
      ((CBucket.MakeBucketMerged ⟨1, 10, true, false, 1/2, 9⟩ ⟨5, 20, true, false, 1/2, 15⟩
            100 200 true).1 = m ∨
        (CBucket.MakeBucketMerged ⟨1, 10, true, false, 1/2, 9⟩ ⟨5, 20, true, false, 1/2, 15⟩
            100 200 true).2.1 = some m ∨
        (CBucket.MakeBucketMerged ⟨1, 10, true, false, 1/2, 9⟩ ⟨5, 20, true, false, 1/2, 15⟩
            100 200 true).2.2.1 = some m) ∧
      m.lower = max 1 5 ∧ m.upper = min 10 20 ∧
      m.frequency = (if true = true then
          min 1 ((mergeRowsThis ⟨1, 10, true, false, 1/2, 9⟩ ⟨5, 20, true, false, 1/2, 15⟩ 100 +
            mergeRowsOther ⟨1, 10, true, false, 1/2, 9⟩ ⟨5, 20, true, false, 1/2, 15⟩ 200) /
            (100 + 200))
        else
          min 1 (max (mergeRowsThis ⟨1, 10, true, false, 1/2, 9⟩ ⟨5, 20, true, false, 1/2, 15⟩ 100)
            (mergeRowsOther ⟨1, 10, true, false, 1/2, 9⟩ ⟨5, 20, true, false, 1/2, 15⟩ 200) /
            max 100 200))) ∧
    CBucket.MakeBucketMerged ⟨7, 7, true, true, 1/4, 3⟩ ⟨7, 7, true, true, 1/4, 5⟩ 2 2 true =
      (⟨7, 7, true, true, min 1 ((1/4 + 1/4) / 2), 1⟩, none, none, 2 + 2) :=
  ⟨(c3_merge_middle_frequency ⟨1, 10, true, false, 1/2, 9⟩ ⟨5, 20, true, false, 1/2, 15⟩
      100 200 true 7 (1/4) (1/4) 3 5 2).1 (by norm_num [IsSingleton]),
   (c3_merge_middle_frequency ⟨1, 10, true, false, 1/2, 9⟩ ⟨5, 20, true, false, 1/2, 15⟩
      100 200 true 7 (1/4) (1/4) 3 5 2).2 (by norm_num)⟩

/-- C4 (amended): for a merge of two intersecting non-singleton buckets, the
middle zone's NDV is the full-additivity estimate (the sum of the two sides'
contributed NDVs), capped at the zone's maximum representable distinct count
derived from the zone's width; the average with the full-overlap estimate is
not taken. -/
theorem c4_merge_middle_ndv (b other : CBucket) (rows rows_other : ℚ) (ua : Bool)
    (h1 : b.IsSingleton = false) (h2 : other.IsSingleton = false) :
    ∃ m : CBucket,
      ((b.MakeBucketMerged other rows rows_other ua).1 = m ∨
        (b.MakeBucketMerged other rows rows_other ua).2.1 = some m ∨
        (b.MakeBucketMerged other rows rows_other ua).2.2.1 = some m) ∧
      m.lower = max b.lower other.lower ∧ m.upper = min b.upper other.upper ∧
      m.distinct = min
        (widthQ (min b.upper other.upper) (max b.lower other.lower)
          (b.lowerClosed || other.lowerClosed) false)
        (b.distinct * (mergeThisOverlapLower b other + mergeThisOverlapUpper b other) +
          other.distinct *
            (mergeOtherOverlapLower b other + mergeOtherOverlapUpper b other)) := by
  refine ⟨mergeMiddleThird b other rows rows_other ua,
    mergeMiddle_mem b other rows rows_other ua (by simp [h1, h2]),
    rfl, rfl, ?_⟩
  simp [mergeMiddleThird, mergeMiddleNdv, h1, h2]

/-- C4 counterexample: merging [1,10) (ndv 4) with [1,10) (ndv 2) under
union-all produces a middle-zone NDV of 6 (the capped sum), while the claim's
average of the full-additivity and full-overlap estimates predicts 5. -/
theorem c4_counterexample :
    (CBucket.MakeBucketMerged ⟨1, 10, true, false, 1/2, 4⟩ ⟨1, 10, true, false, 1/2, 2⟩
        100 100 true).1.distinct = 6 ∧
      min (widthQ 10 1 true false) (((4 : ℚ) + 2 + max 4 2) / 2) = 5 ∧ ((6 : ℚ) ≠ 5) := by
  refine ⟨?_, ?_, by norm_num⟩
  · norm_num [MakeBucketMerged, IsSingleton, mergeMiddleThird, mergeMiddleNdv,
      mergeLowerThird, mergeUpperThird, mergeThisOverlapLower, mergeThisOverlapUpper,
      mergeOtherOverlapLower, mergeOtherOverlapUpper, widthQ, GetOverlapPercentage,
      Contains]
  · norm_num [widthQ]

/-- Witness for C4 at the buckets [1,10) (ndv 4) and [1,10) (ndv 2). -/
theorem c4_witness :
    ∃ m : CBucket,
      ((CBucket.MakeBucketMerged ⟨1, 10, true, false, 1/2, 4⟩ ⟨1, 10, true, false, 1/2, 2⟩
          100 100 true).1 = m ∨
        (CBucket.MakeBucketMerged ⟨1, 10, true, false, 1/2, 4⟩ ⟨1, 10, true, false, 1/2, 2⟩
          100 100 true).2.1 = some m ∨
        (CBucket.MakeBucketMerged ⟨1, 10, true, false, 1/2, 4⟩ ⟨1, 10, true, false, 1/2, 2⟩
          100 100 true).2.2.1 = some m) ∧
      m.lower = max 1 1 ∧ m.upper = min 10 10 ∧
      m.distinct = min (widthQ (min 10 10) (max 1 1) (true || true) false)
        ((4 : ℚ) * (mergeThisOverlapLower ⟨1, 10, true, false, 1/2, 4⟩
            ⟨1, 10, true, false, 1/2, 2⟩ +
          mergeThisOverlapUpper ⟨1, 10, true, false, 1/2, 4⟩ ⟨1, 10, true, false, 1/2, 2⟩) +
          (2 : ℚ) * (mergeOtherOverlapLower ⟨1, 10, true, false, 1/2, 4⟩
              ⟨1, 10, true, false, 1/2, 2⟩ +
            mergeOtherOverlapUpper ⟨1, 10, true, false, 1/2, 4⟩
              ⟨1, 10, true, false, 1/2, 2⟩)) :=
  c4_merge_middle_ndv ⟨1, 10, true, false, 1/2, 4⟩ ⟨1, 10, true, false, 1/2, 2⟩ 100 100 true
    (by norm_num [IsSingleton]) (by norm_num [IsSingleton])

lemma width_pos (b : CBucket) : 0 < b.Width := by
  unfold Width IsSingleton
  split_ifs with h
  · norm_num
  · have hne : b.upper ≠ b.lower := by
      simp only [beq_iff_eq] at h
      exact fun he => h he.symm
    have := one_le_abs_cast b.upper b.lower hne
    unfold distanceQ
    linarith

lemma one_le_width (b : CBucket) : 1 ≤ b.Width := by
  unfold Width IsSingleton
  split_ifs with h
  · norm_num
  · have hne : b.upper ≠ b.lower := by
      simp only [beq_iff_eq] at h
      exact fun he => h he.symm
    exact one_le_abs_cast b.upper b.lower hne

lemma distanceQ_eq (a b : ℤ) : distanceQ a b = ((|a - b| : ℤ) : ℚ) := by
  rw [distanceQ, Int.cast_abs, Int.cast_sub]

lemma distanceQ_nonneg (a b : ℤ) : 0 ≤ distanceQ a b := abs_nonneg _

lemma distanceQ_le_distanceQ (a b c d : ℤ) (h : |a - b| ≤ |c - d|) :
    distanceQ a b ≤ distanceQ c d := by
  rw [distanceQ_eq, distanceQ_eq]
  exact_mod_cast h

lemma not_singleton_ne (b : CBucket) (h : b.IsSingleton = false) : b.lower ≠ b.upper := by
  simp only [IsSingleton, beq_eq_false_iff_ne, ne_eq] at h
  exact h

/-- If the buckets intersect and the overlap range is not a point, the
overlap distance is bounded by this bucket's width. -/
lemma distance_le_width_left (b other : CBucket)
    (hlu1 : b.lower ≤ b.upper)
    (hs1 : b.lower = b.upper → b.lowerClosed = true ∧ b.upperClosed = true)
    (hlu2 : other.lower ≤ other.upper)
    (hs2 : other.lower = other.upper → other.lowerClosed = true ∧ other.upperClosed = true)
    (hi : b.Intersects other = true)
    (hpt : ¬ (max b.lower other.lower = min b.upper other.upper)) :
    distanceQ (min b.upper other.upper) (max b.lower other.lower) ≤ b.Width := by
  have hr := intersects_range b other hlu1 hs1 hlu2 hs2 hi
  have hlt : max b.lower other.lower < min b.upper other.upper := lt_of_le_of_ne hr hpt
  have hb : b.lower ≠ b.upper := by
    intro he
    have h1 : b.lower ≤ max b.lower other.lower := le_max_left _ _
    have h2 : min b.upper other.upper ≤ b.upper := min_le_left _ _
    omega
  have hW : b.Width = distanceQ b.upper b.lower := by
    unfold Width IsSingleton
    rw [if_neg]
    simp only [beq_iff_eq]
    exact hb
  rw [hW]
  apply distanceQ_le_distanceQ
  have h1 : b.lower ≤ max b.lower other.lower := le_max_left _ _
  have h2 : min b.upper other.upper ≤ b.upper := min_le_left _ _
  rcases abs_cases (min b.upper other.upper - max b.lower other.lower) with ⟨e1, e2⟩ | ⟨e1, e2⟩ <;>
    rcases abs_cases (b.upper - b.lower) with ⟨f1, f2⟩ | ⟨f1, f2⟩ <;> omega

lemma distance_le_width_right (b other : CBucket)
    (hlu1 : b.lower ≤ b.upper)
    (hs1 : b.lower = b.upper → b.lowerClosed = true ∧ b.upperClosed = true)
    (hlu2 : other.lower ≤ other.upper)
    (hs2 : other.lower = other.upper → other.lowerClosed = true ∧ other.upperClosed = true)
    (hi : b.Intersects other = true)
    (hpt : ¬ (max b.lower other.lower = min b.upper other.upper)) :
    distanceQ (min b.upper other.upper) (max b.lower other.lower) ≤ other.Width := by
  have hi2 : other.Intersects b = true := by
    rw [intersects_comm other b hlu2 hs2 hlu1 hs1]
    exact hi
  have h := distance_le_width_left other b hlu2 hs2 hlu1 hs1 hi2
    (by rw [max_comm other.lower b.lower, min_comm other.upper b.upper]; exact hpt)
  rw [max_comm other.lower b.lower, min_comm other.upper b.upper] at h
  exact h

/-- The core arithmetic bound of the equi-join frequency formula. -/
lemma intersect_freq_core (q1 q2 n1 n2 : ℚ) (hq1 : 0 ≤ q1) (hq2 : 0 ≤ q2)
    (hq21 : q2 ≤ 1) (hn1 : q1 ≤ n1) (hn2 : 0 ≤ n2) :
    0 ≤ q1 * q2 * 1 / max n1 n2 ∧ q1 * q2 * 1 / max n1 n2 ≤ 1 ∧ 0 ≤ min n1 n2 := by
  have hn1' : 0 ≤ n1 := le_trans hq1 hn1
  have hM : 0 ≤ max n1 n2 := le_trans hn2 (le_max_right n1 n2)
  refine ⟨div_nonneg (by positivity) hM, ?_, le_min hn1' hn2⟩
  rcases eq_or_lt_of_le hM with hM0 | hM0
  · rw [← hM0, div_zero]
    norm_num
  · rw [div_le_one hM0, mul_one]
    calc q1 * q2 ≤ n1 * 1 := mul_le_mul hn1 hq21 hq2 hn1'
    _ = n1 := mul_one n1
    _ ≤ max n1 n2 := le_max_left n1 n2

/-- The middle zone of a merge of two intersecting buckets that are not both
singletons has non-negative maximum representable NDV. -/
lemma merge_width_nonneg (b other : CBucket)
    (hlu1 : b.lower ≤ b.upper)
    (hs1 : b.lower = b.upper → b.lowerClosed = true ∧ b.upperClosed = true)
    (hlu2 : other.lower ≤ other.upper)
    (hs2 : other.lower = other.upper → other.lowerClosed = true ∧ other.upperClosed = true)
    (hi : b.Intersects other = true)
    (h1 : b.IsSingleton = false) (h2 : other.IsSingleton = false) :
    0 ≤ widthQ (min b.upper other.upper) (max b.lower other.lower)
      (b.lowerClosed || other.lowerClosed) false := by
  have hr := intersects_range b other hlu1 hs1 hlu2 hs2 hi
  rcases lt_or_eq_of_le hr with hlt | heq
  · exact widthQ_nonneg _ _ _ _ (by omega)
  · have hb := not_singleton_ne b h1
    have ho := not_singleton_ne other h2
    rw [intersects_iff b other hlu1 hs1 hlu2 hs2] at hi
    obtain ⟨p1, p2⟩ := hi
    have hlc : (b.lowerClosed || other.lowerClosed) = true := by
      rcases max_choice b.lower other.lower with hm | hm <;>
        rcases min_choice b.upper other.upper with hn | hn
      · exact absurd (by omega : b.lower = b.upper) hb
      · have he : b.lower = other.upper := by omega
        rcases p1 with hp | ⟨-, hp1, -⟩
        · exact absurd hp (by omega)
        · simp [hp1]
      · have he : other.lower = b.upper := by omega
        rcases p2 with hp | ⟨-, hp1, -⟩
        · exact absurd hp (by omega)
        · simp [hp1]
      · exact absurd (by omega : other.lower = other.upper) ho
    rw [← heq, hlc]
    simp [widthQ]

lemma mergeThisOverlapLower_nonneg (b other : CBucket) :
    0 ≤ mergeThisOverlapLower b other := by
  unfold mergeThisOverlapLower
  split_ifs
  · norm_num
  · have := overlap_le_one b (max b.lower other.lower) false
    linarith
  · norm_num

lemma mergeOtherOverlapLower_nonneg (b other : CBucket) :
    0 ≤ mergeOtherOverlapLower b other := by
  unfold mergeOtherOverlapLower
  split_ifs
  · norm_num
  · norm_num
  · have := overlap_le_one other (max b.lower other.lower) false
    linarith

lemma mergeThisOverlapUpper_nonneg (b other : CBucket) :
    0 ≤ mergeThisOverlapUpper b other := by
  unfold mergeThisOverlapUpper
  split_ifs <;> first | exact overlap_nonneg _ _ _ | norm_num

lemma mergeOtherOverlapUpper_nonneg (b other : CBucket) :
    0 ≤ mergeOtherOverlapUpper b other := by
  unfold mergeOtherOverlapUpper
  split_ifs <;> first | exact overlap_nonneg _ _ _ | norm_num

lemma mergeLowerThird_ok (b other : CBucket)
    (hf1 : 0 ≤ b.frequency) (hf1b : b.frequency ≤ 1) (hd1 : 0 ≤ b.distinct)
    (hf2 : 0 ≤ other.frequency) (hf2b : other.frequency ≤ 1) (hd2 : 0 ≤ other.distinct) :
    OptBucketOK (mergeLowerThird b other) := by
  unfold mergeLowerThird
  split_ifs
  · trivial
  · exact makeBucketScaleUpper_ok b _ _ hf1 hf1b hd1
  · exact makeBucketScaleUpper_ok other _ _ hf2 hf2b hd2

lemma mergeUpperThird_ok (b other : CBucket)
    (hf1 : 0 ≤ b.frequency) (hf1b : b.frequency ≤ 1) (hd1 : 0 ≤ b.distinct)
    (hf2 : 0 ≤ other.frequency) (hf2b : other.frequency ≤ 1) (hd2 : 0 ≤ other.distinct) :
    OptBucketOK (mergeUpperThird b other) := by
  unfold mergeUpperThird
  split_ifs <;> first
    | trivial
    | exact makeBucketScaleLower_ok b _ _ hf1 hf1b hd1
    | exact makeBucketScaleLower_ok other _ _ hf2 hf2b hd2

lemma mergeMiddleThird_ok (b other : CBucket) (rows rows_other : ℚ) (ua : Bool)
    (hlu1 : b.lower ≤ b.upper)
    (hs1 : b.lower = b.upper → b.lowerClosed = true ∧ b.upperClosed = true)
    (hlu2 : other.lower ≤ other.upper)
    (hs2 : other.lower = other.upper → other.lowerClosed = true ∧ other.upperClosed = true)
    (hf1 : 0 ≤ b.frequency) (hd1 : 0 ≤ b.distinct)
    (hf2 : 0 ≤ other.frequency) (hd2 : 0 ≤ other.distinct)
    (hi : b.Intersects other = true) (hr : 0 ≤ rows) (hro : 0 ≤ rows_other) :
    BucketOK (mergeMiddleThird b other rows rows_other ua) := by
  have ha1 := mergeThisOverlapLower_nonneg b other
  have ha2 := mergeThisOverlapUpper_nonneg b other
  have ha3 := mergeOtherOverlapLower_nonneg b other
  have ha4 := mergeOtherOverlapUpper_nonneg b other
  have hmt : 0 ≤ mergeRowsThis b other rows := by
    unfold mergeRowsThis
    exact mul_nonneg (mul_nonneg hf1 hr) (by linarith)
  have hmo : 0 ≤ mergeRowsOther b other rows_other := by
    unfold mergeRowsOther
    exact mul_nonneg (mul_nonneg hf2 hro) (by linarith)
  refine ⟨?_, ?_, ?_⟩
  · show 0 ≤ mergeMiddleFreq b other rows rows_other ua
    unfold mergeMiddleFreq
    split_ifs with hua
    · exact le_min (by norm_num) (div_nonneg (by linarith) (by linarith))
    · exact le_min (by norm_num)
        (div_nonneg (le_trans hmt (le_max_left _ _)) (le_trans hr (le_max_left _ _)))
  · show mergeMiddleFreq b other rows rows_other ua ≤ 1
    unfold mergeMiddleFreq
    split_ifs with hua <;> exact min_le_left _ _
  · show 0 ≤ mergeMiddleNdv b other
    unfold mergeMiddleNdv
    split_ifs with hsng
    · norm_num
    · simp only [Bool.or_eq_true, not_or, Bool.not_eq_true] at hsng
      exact le_min (merge_width_nonneg b other hlu1 hs1 hlu2 hs2 hi hsng.1 hsng.2)
        (add_nonneg (mul_nonneg hd1 (by linarith)) (mul_nonneg hd2 (by linarith)))

/-- C1 (amended): every operation of the bucket algebra produces buckets with
frequency in [0,1] and non-negative distinct count from well-formed inputs,
with the following additional legality conditions: `MakeBucketUpdateFrequency`
requires non-negative row counts with `frequency * rows_old <= rows_new`;
`MakeBucketIntersect` requires intersecting inputs whose frequency does not
exceed their distinct count; `MakeBucketMerged` requires intersecting inputs
and non-negative row counts. -/
theorem c1_invariants (b other : CBucket) (p : ℤ) (ip : Bool)
    (rows_old rows_new rows rows_other : ℚ) (ua : Bool)
    (h1 : WF b) (h2 : WF other) :
    BucketOK (b.MakeBucketSingleton p) ∧
    OptBucketOK (b.MakeBucketScaleUpper p ip) ∧
    OptBucketOK (b.MakeBucketScaleLower p ip) ∧
    BucketOK b.MakeBucketCopy ∧
    (0 ≤ rows_old → 0 ≤ rows_new → b.frequency * rows_old ≤ rows_new →
      BucketOK (b.MakeBucketUpdateFrequency rows_old rows_new)) ∧
    (b.Intersects other = true → b.frequency ≤ b.distinct →
      other.frequency ≤ other.distinct → BucketOK (b.MakeBucketIntersect other).1) ∧
    OptBucketOK (b.Difference other).1 ∧
    OptBucketOK (b.Difference other).2 ∧
    (b.Intersects other = true → 0 ≤ rows → 0 ≤ rows_other →
      BucketOK (b.MakeBucketMerged other rows rows_other ua).1 ∧
      OptBucketOK (b.MakeBucketMerged other rows rows_other ua).2.1 ∧
      OptBucketOK (b.MakeBucketMerged other rows rows_other ua).2.2.1) := by
  obtain ⟨hlu1, hf0, hf1, hd0, hs1⟩ := h1
  obtain ⟨hlu2, hof0, hof1, hod0, hs2⟩ := h2
  refine ⟨makeBucketSingleton_ok b p hf0 hd0,
    makeBucketScaleUpper_ok b p ip hf0 hf1 hd0,
    makeBucketScaleLower_ok b p ip hf0 hf1 hd0,
    ⟨hf0, hf1, hd0⟩, ?_, ?_, ?_, ?_, ?_⟩
  · -- MakeBucketUpdateFrequency
    intro hro hrn hle
    refine ⟨div_nonneg (mul_nonneg hf0 hro) hrn, ?_, hd0⟩
    show b.frequency * rows_old / rows_new ≤ 1
    rcases eq_or_lt_of_le hrn with h0 | h0
    · rw [← h0, div_zero]
      norm_num
    · rw [div_le_one h0]
      exact hle
  · -- MakeBucketIntersect
    intro hi hfd1 hfd2
    by_cases hedge : (b.IsSingleton && other.IsSingleton) = true
    · have hd : (b.MakeBucketIntersect other).1.distinct =
          min b.distinct other.distinct := by
        simp only [MakeBucketIntersect, hedge, eq_self_iff_true, if_true, one_mul]
      have hf : (b.MakeBucketIntersect other).1.frequency =
          b.frequency * other.frequency * 1 / max b.distinct other.distinct := by
        simp only [MakeBucketIntersect, hedge, eq_self_iff_true, if_true, one_mul]
      obtain ⟨c1, c2, c3⟩ := intersect_freq_core b.frequency other.frequency
        b.distinct other.distinct hf0 hof0 hof1 hfd1 hod0
      exact ⟨by rw [hf]; exact c1, by rw [hf]; exact c2, by rw [hd]; exact c3⟩
    · have hedgeF : (b.IsSingleton && other.IsSingleton) = false := by
        simpa using hedge
      by_cases hpt : max b.lower other.lower = min b.upper other.upper
      · have hd : (b.MakeBucketIntersect other).1.distinct =
            min (1 / b.Width * b.distinct) (1 / other.Width * other.distinct) := by
          simp only [MakeBucketIntersect, hedgeF, Bool.false_eq_true, if_false, hpt,
            eq_self_iff_true, if_true]
        have hf : (b.MakeBucketIntersect other).1.frequency =
            1 / b.Width * b.frequency * (1 / other.Width * other.frequency) * 1 /
              max (1 / b.Width * b.distinct) (1 / other.Width * other.distinct) := by
          simp only [MakeBucketIntersect, hedgeF, Bool.false_eq_true, if_false, hpt,
            eq_self_iff_true, if_true]
        have hr1 : (0 : ℚ) ≤ 1 / b.Width := div_nonneg (by norm_num) (width_pos b).le
        have hr2 : (0 : ℚ) ≤ 1 / other.Width := div_nonneg (by norm_num) (width_pos other).le
        have hr2b : (1 : ℚ) / other.Width ≤ 1 := by
          rw [div_le_one (width_pos other)]
          exact one_le_width other
        obtain ⟨c1, c2, c3⟩ := intersect_freq_core (1 / b.Width * b.frequency)
          (1 / other.Width * other.frequency) (1 / b.Width * b.distinct)
          (1 / other.Width * other.distinct) (mul_nonneg hr1 hf0) (mul_nonneg hr2 hof0)
          (mul_le_one₀ hr2b hof0 hof1) (mul_le_mul_of_nonneg_left hfd1 hr1)
          (mul_nonneg hr2 hod0)
        exact ⟨by rw [hf]; exact c1, by rw [hf]; exact c2, by rw [hd]; exact c3⟩
      · have hDb := distance_le_width_left b other hlu1 hs1 hlu2 hs2 hi hpt
        have hDo := distance_le_width_right b other hlu1 hs1 hlu2 hs2 hi hpt
        have hd : (b.MakeBucketIntersect other).1.distinct =
            min (distanceQ (min b.upper other.upper) (max b.lower other.lower) / b.Width *
                b.distinct)
              (distanceQ (min b.upper other.upper) (max b.lower other.lower) / other.Width *
                other.distinct) := by
          simp only [MakeBucketIntersect, hedgeF, Bool.false_eq_true, if_false, if_neg hpt]
        have hf : (b.MakeBucketIntersect other).1.frequency =
            distanceQ (min b.upper other.upper) (max b.lower other.lower) / b.Width *
                b.frequency *
              (distanceQ (min b.upper other.upper) (max b.lower other.lower) / other.Width *
                other.frequency) * 1 /
              max (distanceQ (min b.upper other.upper) (max b.lower other.lower) / b.Width *
                  b.distinct)
                (distanceQ (min b.upper other.upper) (max b.lower other.lower) / other.Width *
                  other.distinct) := by
          simp only [MakeBucketIntersect, hedgeF, Bool.false_eq_true, if_false, if_neg hpt]
        have hr1 : (0 : ℚ) ≤
            distanceQ (min b.upper other.upper) (max b.lower other.lower) / b.Width :=
          div_nonneg (distanceQ_nonneg _ _) (width_pos b).le
        have hr2 : (0 : ℚ) ≤
            distanceQ (min b.upper other.upper) (max b.lower other.lower) / other.Width :=
          div_nonneg (distanceQ_nonneg _ _) (width_pos other).le
        have hr2b :
            distanceQ (min b.upper other.upper) (max b.lower other.lower) / other.Width ≤ 1 :=
          (div_le_one (width_pos other)).mpr hDo
        obtain ⟨c1, c2, c3⟩ := intersect_freq_core
          (distanceQ (min b.upper other.upper) (max b.lower other.lower) / b.Width *
            b.frequency)
          (distanceQ (min b.upper other.upper) (max b.lower other.lower) / other.Width *
            other.frequency)
          (distanceQ (min b.upper other.upper) (max b.lower other.lower) / b.Width *
            b.distinct)
          (distanceQ (min b.upper other.upper) (max b.lower other.lower) / other.Width *
            other.distinct)
          (mul_nonneg hr1 hf0) (mul_nonneg hr2 hof0) (mul_le_one₀ hr2b hof0 hof1)
          (mul_le_mul_of_nonneg_left hfd1 hr1) (mul_nonneg hr2 hod0)
        exact ⟨by rw [hf]; exact c1, by rw [hf]; exact c2, by rw [hd]; exact c3⟩
  · -- Difference, lower residual
    simp only [Difference]
    split_ifs <;> first
      | trivial
      | exact ⟨hf0, hf1, hd0⟩
      | exact makeBucketScaleUpper_ok b _ _ hf0 hf1 hd0
      | exact makeBucketScaleLower_ok b _ _ hf0 hf1 hd0
  · -- Difference, upper residual
    simp only [Difference]
    split_ifs <;> first
      | trivial
      | exact ⟨hf0, hf1, hd0⟩
      | exact makeBucketScaleUpper_ok b _ _ hf0 hf1 hd0
      | exact makeBucketScaleLower_ok b _ _ hf0 hf1 hd0
  · -- MakeBucketMerged
    intro hi hr hro
    simp only [MakeBucketMerged]
    by_cases hss : (b.IsSingleton && other.IsSingleton) = true
    · rw [if_pos hss]
      refine ⟨⟨?_, ?_, by norm_num⟩, trivial, trivial⟩
      · split_ifs with hua
        · exact le_min (by norm_num) (div_nonneg
            (add_nonneg (mul_nonneg hf0 hr) (mul_nonneg hof0 hro)) (by linarith))
        · exact div_nonneg (le_trans (mul_nonneg hf0 hr) (le_max_left _ _))
            (le_trans hr (le_max_left _ _))
      · split_ifs with hua
        · exact min_le_left _ _
        · rcases eq_or_lt_of_le (le_trans hr (le_max_left rows rows_other)) with h0 | h0
          · rw [← h0, div_zero]
            norm_num
          · rw [div_le_one h0]
            exact max_le (le_trans (mul_le_of_le_one_left hr hf1) (le_max_left _ _))
              (le_trans (mul_le_of_le_one_left hro hof1) (le_max_right _ _))
    · rw [if_neg hss]
      have hmid := mergeMiddleThird_ok b other rows rows_other ua hlu1 hs1 hlu2 hs2
        hf0 hd0 hof0 hod0 hi hr hro
      have hlow := mergeLowerThird_ok b other hf0 hf1 hd0 hof0 hof1 hod0
      have hupp := mergeUpperThird_ok b other hf0 hf1 hd0 hof0 hof1 hod0
      rcases hl : mergeLowerThird b other with - | lt <;>
        rcases hu : mergeUpperThird b other with - | ut <;>
          rw [hl] at hlow <;> rw [hu] at hupp <;> dsimp only <;>
            first
              | exact ⟨hmid, trivial, trivial⟩
              | exact ⟨hlow, hmid, trivial⟩
              | (split_ifs <;> first
                  | exact ⟨hmid, hupp, trivial⟩
                  | exact ⟨hmid, trivial, hupp⟩
                  | exact ⟨hlow, hupp, hmid⟩
                  | exact ⟨hlow, hmid, hupp⟩)

/-- C1 counterexample: the claim as stated fails for
`MakeBucketUpdateFrequency`: from the well-formed bucket [1,2] with frequency
1 and row counts 2 (old) and 1 (new) it produces frequency 2, outside [0,1]. -/
theorem c1_counterexample :
    WF ⟨1, 2, true, true, 1, 1⟩ ∧
      (CBucket.MakeBucketUpdateFrequency ⟨1, 2, true, true, 1, 1⟩ 2 1).frequency = 2 ∧
      ¬ ((2 : ℚ) ≤ 1) := by
  refine ⟨⟨by norm_num, by norm_num, by norm_num, by norm_num, by norm_num⟩, ?_, by norm_num⟩
  norm_num [MakeBucketUpdateFrequency]

/-- Witness for C1 at the buckets [1,10) and [5,20). -/
theorem c1_witness :
    BucketOK ((⟨1, 10, true, false, 1/2, 9⟩ : CBucket).MakeBucketSingleton 5) ∧
    OptBucketOK ((⟨1, 10, true, false, 1/2, 9⟩ : CBucket).MakeBucketScaleUpper 5 false) ∧
    BucketOK ((⟨1, 10, true, false, 1/2, 9⟩ : CBucket).MakeBucketMerged
      ⟨5, 20, true, false, 1/2, 15⟩ 100 200 true).1 := by
  have hw1 : WF ⟨1, 10, true, false, 1/2, 9⟩ :=
    ⟨by norm_num, by norm_num, by norm_num, by norm_num, by norm_num⟩
  have hw2 : WF ⟨5, 20, true, false, 1/2, 15⟩ :=
    ⟨by norm_num, by norm_num, by norm_num, by norm_num, by norm_num⟩
  have hi : (⟨1, 10, true, false, 1/2, 9⟩ : CBucket).Intersects
      ⟨5, 20, true, false, 1/2, 15⟩ = true := by
    norm_num [Intersects, IsSingleton, Subsumes, Contains, CompareLowerBounds,
      CompareUpperBounds, CompareLowerBoundToUpperBound]
  have h := c1_invariants ⟨1, 10, true, false, 1/2, 9⟩ ⟨5, 20, true, false, 1/2, 15⟩
    5 false 1 1 100 200 true hw1 hw2
  exact ⟨h.1, h.2.1, (h.2.2.2.2.2.2.2.2 hi (by norm_num) (by norm_num)).1⟩

end CBucket
